import Mathlib

/-!
Verification development for the two-service chat/memory system
(chat-agent-service and memory-service).

The definitions below are a shallow embedding of the Python source:

* `aset` / `alookup` / `aerase` model Python `dict` assignment, lookup and
  `del` over insertion-ordered association lists (string keys);
* `ChatAgent._handle_message` and `_generate_response`
  (app/services/chat_agent.py) become `handle_message` and `build_messages`,
  with the outcomes of the awaited network calls (memory persistence, LLM
  reply) passed in as explicit `TurnEffects`;
* `AgentManager.start_agent` / `stop_agent` / `get_agent_status`
  (app/services/agent_manager.py) become `start_agent`, `stop_agent`,
  `get_agent_status` over an association-list registry, with the outcome of
  `agent.start()` / `agent.stop()` passed in explicitly;
* `MemoryService.store_memory` metadata handling and `_format_memories`
  (memory-service/app/services/memory_service.py) become `store_metadata`
  and `format_memories`;
* the memory-service endpoint handlers (app/api/endpoints/memory.py, whose
  `except` branches raise `NameError` on the unimported `JSONResponse`)
  become `store_memory_endpoint` and `search_memories_endpoint`, composed
  with the global exception handler of main.py (`global_exception_handler`,
  `memory_api_store_response`, `memory_api_search_response`);
* room-name validation and the validation prefix of `create_room`
  (chat-agent-service/app/api/endpoints/rooms.py) become
  `validate_room_name` and `create_room_validate`.
-/

/-- Python dict assignment `d[k] = v`: replace the value in place if the key
is present, otherwise append the binding at the end (insertion order). -/
def aset {α : Type} : List (String × α) → String → α → List (String × α)
  | [], k, v => [(k, v)]
  | (k₀, v₀) :: rest, k, v =>
      if k₀ = k then (k, v) :: rest else (k₀, v₀) :: aset rest k v

/-- Python dict lookup `d.get(k)`: first binding for the key, if any. -/
def alookup {α : Type} : List (String × α) → String → Option α
  | [], _ => none
  | (k₀, v₀) :: rest, k => if k₀ = k then some v₀ else alookup rest k

/-- Python `del d[k]`: remove the first binding for the key. -/
def aerase {α : Type} : List (String × α) → String → List (String × α)
  | [], _ => []
  | (k₀, v₀) :: rest, k => if k₀ = k then rest else (k₀, v₀) :: aerase rest k

/-- Keys of an association list, in order. -/
def keys {α : Type} (d : List (String × α)) : List String :=
  d.map Prod.fst

theorem alookup_aset_self {α : Type} (d : List (String × α)) (k : String) (v : α) :
    alookup (aset d k v) k = some v := by
  induction d with
  | nil => simp [aset, alookup]
  | cons hd tl ih =>
      obtain ⟨k₀, v₀⟩ := hd
      by_cases h : k₀ = k
      · simp [aset, alookup, h]
      · simp [aset, alookup, h, ih]

theorem alookup_aset_ne {α : Type} (d : List (String × α)) (k k' : String) (v : α)
    (h : k' ≠ k) : alookup (aset d k v) k' = alookup d k' := by
  have hne : ¬ (k = k') := fun hh => h hh.symm
  induction d with
  | nil => simp [aset, alookup, hne]
  | cons hd tl ih =>
      obtain ⟨k₀, v₀⟩ := hd
      by_cases hk : k₀ = k
      · subst hk
        simp [aset, alookup, hne]
      · simp [aset, alookup, hk, ih]

theorem mem_keys_aset {α : Type} (d : List (String × α)) (k a : String) (v : α) :
    a ∈ keys (aset d k v) ↔ a ∈ keys d ∨ a = k := by
  induction d with
  | nil => simp [aset, keys]
  | cons hd tl ih =>
      obtain ⟨k₀, v₀⟩ := hd
      simp only [keys, List.map_cons, List.mem_cons] at ih ⊢
      by_cases hk : k₀ = k
      · subst hk
        rw [show aset ((k₀, v₀) :: tl) k₀ v = (k₀, v) :: tl from by simp [aset]]
        simp only [List.map_cons, List.mem_cons]
        tauto
      · simp only [aset, if_neg hk, List.map_cons, List.mem_cons]
        rw [ih]
        tauto

theorem nodup_keys_aset {α : Type} (d : List (String × α)) (k : String) (v : α)
    (h : (keys d).Nodup) : (keys (aset d k v)).Nodup := by
  induction d with
  | nil => simp [aset, keys]
  | cons hd tl ih =>
      obtain ⟨k₀, v₀⟩ := hd
      simp only [keys, List.map_cons, List.nodup_cons] at h
      by_cases hk : k₀ = k
      · subst hk
        rw [show aset ((k₀, v₀) :: tl) k₀ v = (k₀, v) :: tl from by simp [aset]]
        simp only [keys, List.map_cons, List.nodup_cons]
        exact h
      · simp only [aset, if_neg hk, keys, List.map_cons, List.nodup_cons]
        refine ⟨?_, ?_⟩
        · intro hmem
          rcases (mem_keys_aset tl k k₀ v).mp (by simpa [keys] using hmem) with hm | hm
          · exact h.1 (by simpa [keys] using hm)
          · exact hk hm
        · have hh := ih (by simpa [keys] using h.2)
          simpa [keys] using hh

theorem alookup_eq_none_of_not_mem_keys {α : Type} (d : List (String × α)) (k : String)
    (h : k ∉ keys d) : alookup d k = none := by
  induction d with
  | nil => rfl
  | cons hd tl ih =>
      obtain ⟨k₀, v₀⟩ := hd
      simp only [keys, List.map_cons, List.mem_cons] at h
      push_neg at h
      have h1 : ¬ (k₀ = k) := fun hh => h.1 hh.symm
      simp only [alookup, if_neg h1]
      exact ih (by simpa [keys] using h.2)

theorem alookup_aerase_self {α : Type} (d : List (String × α)) (k : String)
    (h : (keys d).Nodup) : alookup (aerase d k) k = none := by
  induction d with
  | nil => rfl
  | cons hd tl ih =>
      obtain ⟨k₀, v₀⟩ := hd
      simp only [keys, List.map_cons, List.nodup_cons] at h
      by_cases hk : k₀ = k
      · subst hk
        rw [show aerase ((k₀, v₀) :: tl) k₀ = tl from by simp [aerase]]
        exact alookup_eq_none_of_not_mem_keys tl k₀ (by simpa [keys] using h.1)
      · simp only [aerase, if_neg hk, alookup]
        exact ih (by simpa [keys] using h.2)

/-- Characters stripped by Python `str.strip()` with no argument
(ASCII whitespace; the repository only feeds ASCII identifiers and chat
text through it). -/
def isPySpace (c : Char) : Bool :=
  c = ' ' || c = '\t' || c = '\n' || c = '\r' || c = '\x0b' || c = '\x0c'

/-- Python `str.strip()` on a character list: drop whitespace from both ends. -/
def pyStripChars (s : List Char) : List Char :=
  ((s.dropWhile isPySpace).reverse.dropWhile isPySpace).reverse

/-- Python `str.strip()`. -/
def pyStrip (s : String) : String :=
  String.mk (pyStripChars s.data)

/-- One conversation turn, as appended to `ChatAgent.conversation_history`
in `_handle_message` (chat_agent.py): `{role, content, timestamp}`. -/
structure Turn where
  role : String
  content : String
  timestamp : String
deriving DecidableEq, Repr

/-- The per-sender in-memory history `ChatAgent.conversation_history`:
a Python dict from sender identity to a list of turns. -/
abbrev Hist := List (String × List Turn)

/-- Lines 150-157 of chat_agent.py: ensure the sender has an entry and
append a turn at the end of the sender's list. -/
def histAppend (h : Hist) (u : String) (t : Turn) : Hist :=
  aset h u ((alookup h u).getD [] ++ [t])

/-- Observable actions taken by `_handle_message`, in program order.
`persistUser`/`persistAssistant` carry `none` when the Memory Store call
returned normally and `some e` when it raised exception text `e`. -/
inductive TurnEvent where
  | appendUser (t : Turn)
  | persistUser (err : Option String)
  | genReply
  | appendAssistant (t : Turn)
  | persistAssistant (err : Option String)
  | publish (msg : String)
  | logError
deriving DecidableEq, Repr

/-- Outcomes of the awaited calls inside one `_handle_message` run:
`persistUser` / `persistAssistant` are the results of the two
`memory_client.add_memory` awaits (`none` = returned, `some e` = raised `e`);
`reply` is the value returned by `_generate_response` (which never raises:
it catches internally and returns an apology string, but the LLM may yield
Python `None`, modelled as `none`); `now` stands for `datetime.now().isoformat()`. -/
structure TurnEffects where
  persistUser : Option String
  reply : Option String
  persistAssistant : Option String
  now : String
deriving Repr

/-- Result of one `_handle_message` run: the updated conversation history,
the trace of observable actions, and `escaped` = the exception (if any) that
escapes `_handle_message` to its caller (the asyncio task). -/
structure HandleResult where
  history : Hist
  events : List TurnEvent
  escaped : Option String
deriving Repr

/-- Shallow embedding of `ChatAgent._handle_message` (chat_agent.py lines
136-191). The sender identity is compared against `agent_username`; the
message text is the JSON payload `message` field, stripped; the whole body
runs under `try/except Exception` whose handler only logs (line 190-191). -/
def handle_message (hist : Hist) (agent_username sender rawMessage : String)
    (eff : TurnEffects) : HandleResult :=
  if sender = agent_username then ⟨hist, [], none⟩
  else
    let message_text := pyStrip rawMessage
    if message_text = "" then ⟨hist, [], none⟩
    else
      let userT : Turn := ⟨"user", message_text, eff.now⟩
      let h1 := histAppend hist sender userT
      match eff.persistUser with
      | some e =>
          ⟨h1, [TurnEvent.appendUser userT, TurnEvent.persistUser (some e),
            TurnEvent.logError], none⟩
      | none =>
          let evs := [TurnEvent.appendUser userT, TurnEvent.persistUser none,
            TurnEvent.genReply]
          match eff.reply with
          | none => ⟨h1, evs, none⟩
          | some r =>
              if r = "" then ⟨h1, evs, none⟩
              else
                let asT : Turn := ⟨"assistant", r, eff.now⟩
                let h2 := histAppend h1 sender asT
                match eff.persistAssistant with
                | some e =>
                    ⟨h2, evs ++ [TurnEvent.appendAssistant asT,
                      TurnEvent.persistAssistant (some e), TurnEvent.logError], none⟩
                | none =>
                    ⟨h2, evs ++ [TurnEvent.appendAssistant asT,
                      TurnEvent.persistAssistant none, TurnEvent.publish r], none⟩

/-- One message of the prompt sent to the LLM (`{role, content}`). -/
structure Msg where
  role : String
  content : String
deriving DecidableEq, Repr

/-- Python slice `l[-n:]`. -/
def pyLastN {α : Type} (n : Nat) (l : List α) : List α :=
  l.drop (l.length - n)

/-- Shallow embedding of the prompt assembly in `_generate_response`
(chat_agent.py lines 203-217): the last 6 turns of the sender's history,
plus the new user message unless it already equals the content of the last
forwarded entry. -/
def build_messages (hist : List Turn) (message : String) : List Msg :=
  let messages := (pyLastN 6 hist).map (fun t => Msg.mk t.role t.content)
  match messages.getLast? with
  | none => messages ++ [Msg.mk "user" message]
  | some last =>
      if last.content = message then messages
      else messages ++ [Msg.mk "user" message]

/-- Fold `_handle_message` over a sequence of inbound messages from one
sender, keeping only the history (the shape used to study history growth). -/
def runTurns (hist : Hist) (agent sender : String) (msgs : List String)
    (eff : TurnEffects) : Hist :=
  msgs.foldl (fun h m => (handle_message h agent sender m eff).history) hist

/-- The slice of `ChatAgent` state that `AgentManager` reads:
`participant_id` and the `is_connected()` observation. -/
structure AgentS where
  participant_id : Option String
  connected : Bool
deriving DecidableEq, Repr

/-- The `AgentManager.active_agents` dict: room name to registered agent. -/
abbrev ManagerState := List (String × AgentS)

/-- Payload returned by `AgentManager.start_agent`. -/
structure StartResult where
  participant_id : Option String
  status : String
deriving DecidableEq, Repr

/-- Payload returned by `AgentManager.get_agent_status`. -/
structure StatusResult where
  active : Bool
  participant_id : Option String
  connected : Bool
  room_name : String
deriving DecidableEq, Repr

/-- Shallow embedding of `AgentManager.start_agent` (agent_manager.py lines
54-82). `connect` is the outcome of constructing the `ChatAgent` and awaiting
`agent.start()`: `.error e` when it raises (the `except` re-raises, line 82),
`.ok a` when it returns, with `a` the agent then assigned into
`active_agents`. The returned pair is (registry after the call, what the
caller sees). -/
def start_agent (st : ManagerState) (room : String)
    (connect : Except String AgentS) : ManagerState × Except String StartResult :=
  match alookup st room with
  | some a => (st, Except.ok ⟨a.participant_id, "already_active"⟩)
  | none =>
      match connect with
      | Except.error e => (st, Except.error e)
      | Except.ok a => (aset st room a, Except.ok ⟨a.participant_id, "started"⟩)

/-- Shallow embedding of `AgentManager.stop_agent` (agent_manager.py lines
84-99). `stopErr` is the outcome of `await agent.stop()`: `some e` when it
raises (the `except` logs and re-raises, so `del` is never reached), `none`
when it returns and the entry is deleted. -/
def stop_agent (st : ManagerState) (room : String)
    (stopErr : Option String) : ManagerState × Except String Unit :=
  match alookup st room with
  | none => (st, Except.ok ())
  | some _ =>
      match stopErr with
      | some e => (st, Except.error e)
      | none => (aerase st room, Except.ok ())

/-- Shallow embedding of `AgentManager.get_agent_status` (agent_manager.py
lines 101-116). -/
def get_agent_status (st : ManagerState) (room : String) : StatusResult :=
  match alookup st room with
  | some a => ⟨true, a.participant_id, a.connected, room⟩
  | none => ⟨false, none, false, room⟩

/-- Python truthiness of an optional string (`None` and `""` are falsy). -/
def truthyStr : Option String → Bool
  | none => false
  | some s => ! decide (s = "")

/-- Raw provider record as consumed by `MemoryService._format_memories`
(memory_service.py lines 190-223): the fields the formatter inspects
(`id`, `text`, `content`, `memory`) plus the passed-through `score` (opaque
type `σ`, the provider relevance score) and `metadata`. `none` models an
absent key. -/
structure RawRecord (σ : Type) where
  id : Option String
  text : Option String
  content : Option String
  memory : Option String
  score : Option σ
  metadata : Option (List (String × String))
deriving DecidableEq, Repr

/-- The `Memory` response model (memory-service responses.py). -/
structure MemoryRecord (σ : Type) where
  id : String
  text : String
  score : Option σ
  metadata : List (String × String)
deriving DecidableEq, Repr

/-- Line 200-204 of memory_service.py:
`memory_data.get("text") or memory_data.get("content") or memory_data.get("memory", "")`
under Python truthiness. -/
def memoryText {σ : Type} (r : RawRecord σ) : String :=
  if truthyStr r.text then r.text.getD ""
  else if truthyStr r.content then r.content.getD ""
  else r.memory.getD ""

/-- The `Memory(...)` constructed for the record at position `i`
(memory_service.py lines 199 and 210-215). -/
def mkMemory {σ : Type} (i : Nat) (r : RawRecord σ) : MemoryRecord σ :=
  ⟨r.id.getD ("unknown_" ++ toString i), memoryText r, r.score, r.metadata.getD []⟩

/-- The enumerated loop body of `_format_memories`: records whose selected
text is empty are skipped (`continue`, line 206-208), the rest are formatted
in order. -/
def formatFrom {σ : Type} (i : Nat) : List (RawRecord σ) → List (MemoryRecord σ)
  | [] => []
  | r :: rest =>
      if memoryText r = "" then formatFrom (i + 1) rest
      else mkMemory i r :: formatFrom (i + 1) rest

/-- Shallow embedding of `MemoryService._format_memories`. -/
def format_memories {σ : Type} (rs : List (RawRecord σ)) : List (MemoryRecord σ) :=
  formatFrom 0 rs

/-- The `MemorySearchResponse` model (memory-service responses.py). -/
structure SearchResponse (σ : Type) where
  success : Bool
  message : String
  memories : List (MemoryRecord σ)
  count : Nat
deriving Repr

/-- The response assembly of `MemoryService.retrieve_memories`
(memory_service.py lines 106-115) given the raw provider search results:
format, then report `count=len(memories)`. -/
def retrieve_memories_core {σ : Type} (query : String) (results : List (RawRecord σ)) :
    SearchResponse σ :=
  let memories := format_memories results
  ⟨true,
    "Found " ++ toString memories.length ++ " memories for query: \x27" ++ query ++ "\x27",
    memories, memories.length⟩

/-- Metadata assembly in `MemoryService.store_memory` (memory_service.py
lines 28-33): start from the caller metadata (`request.metadata or {}`) and
`dict.update` with `stored_at`, `username`, `service`. Metadata values are
modelled as strings (the service treats them as opaque). `stored_at` stands
for `datetime.utcnow().isoformat()`. -/
def store_metadata (request_metadata : Option (List (String × String)))
    (stored_at username : String) : List (String × String) :=
  let metadata := request_metadata.getD []
  aset (aset (aset metadata "stored_at" stored_at) "username" username)
    "service" "memory-service"

/-- What `MemoryService` can raise into the endpoint handlers: a
`ValueError` (input validation) or a generic `Exception` wrapping an
adapter (mem0) failure, carrying its `str(e)` text. -/
inductive ServiceFailure where
  | valueError (msg : String)
  | exn (msg : String)
deriving DecidableEq, Repr

/-- memory.py imports only `APIRouter, HTTPException, Depends, Request` from
fastapi (lines 1-11) — not `JSONResponse` — so every `except` branch in it,
whose body is `return JSONResponse(...)`, raises `NameError` as soon as it is
entered (the callable name is evaluated before its argument dict is built).
This constant is `str(...)` of that `NameError`. -/
def nameErrorText : String := "name \x27JSONResponse\x27 is not defined"

/-- Shallow embedding of the `store_memory` endpoint handler (memory.py
lines 29-70) as executed: success passes the service payload through; any
service exception enters an `except` branch whose `return JSONResponse(...)`
evaluates the unimported name `JSONResponse` and raises `NameError` before
the envelope dict of that branch (with its `MEMORY_STORE_FAILED` code and
`details: str(e)`) is ever built, so that envelope is dead code and the
`NameError` escapes the handler. -/
def store_memory_endpoint {α : Type} (result : Except ServiceFailure α) :
    Except String α :=
  match result with
  | Except.ok r => Except.ok r
  | Except.error _ => Except.error nameErrorText

/-- Shallow embedding of the `search_memories` endpoint handler (memory.py
lines 78-116): identical runtime shape — its `MEMORY_SEARCH_FAILED` envelope
is dead code behind the same missing `JSONResponse` import, and the
`NameError` escapes. -/
def search_memories_endpoint {α : Type} (result : Except ServiceFailure α) :
    Except String α :=
  match result with
  | Except.ok r => Except.ok r
  | Except.error _ => Except.error nameErrorText

/-- The envelope built by the global `@app.exception_handler(Exception)` in
memory-service main.py (lines 107-122): HTTP 500 with content keys
`{success, message, detail}` — it carries no error-code field — where
`detail` is `str(exc)` of the escaped exception when `settings.DEBUG` and a
fixed string otherwise. -/
structure GlobalErrorEnvelope where
  status : Nat
  success : Bool
  message : String
  detail : String
deriving DecidableEq, Repr

/-- The global exception handler of memory-service main.py (lines 107-122). -/
def global_exception_handler (debug : Bool) (excText : String) : GlobalErrorEnvelope :=
  ⟨500, false, "Internal server error",
    if debug then excText else "An internal error occurred"⟩

/-- What the HTTP client receives from a memory-service endpoint: the
endpoint payload, or the envelope the global handler builds for an exception
that escaped the endpoint. -/
inductive HttpAnswer (α : Type) where
  | ok (value : α)
  | globalError (e : GlobalErrorEnvelope)
deriving DecidableEq, Repr

/-- The store endpoint composed with the app exception routing: an exception
escaping the handler is answered by `global_exception_handler`. -/
def memory_api_store_response {α : Type} (debug : Bool)
    (result : Except ServiceFailure α) : HttpAnswer α :=
  match store_memory_endpoint result with
  | Except.ok r => HttpAnswer.ok r
  | Except.error excText => HttpAnswer.globalError (global_exception_handler debug excText)

/-- The search endpoint composed with the app exception routing. -/
def memory_api_search_response {α : Type} (debug : Bool)
    (result : Except ServiceFailure α) : HttpAnswer α :=
  match search_memories_endpoint result with
  | Except.ok r => HttpAnswer.ok r
  | Except.error excText => HttpAnswer.globalError (global_exception_handler debug excText)

/-- Character class of the room-name regex `^[a-zA-Z0-9\-_\s]+$`
(rooms.py line 40); `\s` is modelled for ASCII input by `isPySpace`. -/
def isRoomNameChar (c : Char) : Bool :=
  c.isAlpha || c.isDigit || c = '-' || c = '_' || isPySpace c

/-- Room-name charset as the specification words it: `[A-Za-z0-9_\- ]`
(spec section 6). Stated from the spec, for comparison with the source
charset `isRoomNameChar`. -/
def specRoomCharset (c : Char) : Bool :=
  c.isAlpha || c.isDigit || c = '_' || c = '-' || c = ' '

/-- Shallow embedding of `validate_room_name` (rooms.py lines 27-43):
reject falsy input, strip, check length 1..100, check the regex. Returns
(valid, error message). -/
def validate_room_name (room_name : String) : Bool × String :=
  if room_name = "" then (false, "Room name must be a non-empty string")
  else
    let stripped := pyStrip room_name
    if stripped.length < 1 then
      (false, "Room name must be at least 1 character(s)")
    else if stripped.length > 100 then
      (false, "Room name cannot exceed 100 characters")
    else if ! stripped.data.all isRoomNameChar then
      (false, "Room name can only contain letters, numbers, hyphens, underscores, and spaces")
    else (true, "")

/-- The create-room request as the validators see it (rooms.py / requests.py):
`metadata_size` abstracts `len(str(metadata))` for a present metadata dict,
`none` meaning no metadata. -/
structure CreateRoomReq where
  room_name : String
  max_participants : Int
  empty_timeout : Int
  metadata_size : Option Nat
deriving DecidableEq, Repr

/-- validate_participants_count (rooms.py lines 45-55). -/
def validate_participants_count (count : Int) : Bool × String :=
  if count < 1 then (false, "Max participants must be at least 1")
  else if count > 1000 then (false, "Max participants cannot exceed 1000")
  else (true, "")

/-- validate_empty_timeout (rooms.py lines 57-67). -/
def validate_empty_timeout (t : Int) : Bool × String :=
  if t < 10 then (false, "Empty timeout must be at least 10 seconds")
  else if t > 86400 then (false, "Empty timeout cannot exceed 86400 seconds (24 hours)")
  else (true, "")

/-- validate_metadata (rooms.py lines 69-80): `None` is valid; otherwise the
serialized size must not exceed 1024. -/
def validate_metadata (metadata_size : Option Nat) : Bool × String :=
  match metadata_size with
  | none => (true, "")
  | some n =>
      if n > 1024 then (false, "Metadata size cannot exceed 1024 characters")
      else (true, "")

/-- Control outcome of `create_room` up to the first provider interaction
(rooms.py lines 82-135): either an early validation rejection (status and
`error_code`, sent before any provider call) or entry into the provider
phase (the `get_room` existence check, then `create_room`) carrying the
stripped room name. -/
inductive CreateRoomStage where
  | rejected (status : Nat) (error_code : String) (message : String)
  | providerPhase (clean_room_name : String)
deriving DecidableEq, Repr

/-- The validation prefix of the `create_room` endpoint (rooms.py lines
87-135), in source order: room name, participants, timeout, metadata, then
`clean_room_name = request.room_name.strip()` and the provider phase. -/
def create_room_validate (req : CreateRoomReq) : CreateRoomStage :=
  let v1 := validate_room_name req.room_name
  if ! v1.1 then CreateRoomStage.rejected 400 "INVALID_ROOM_NAME" v1.2
  else
    let v2 := validate_participants_count req.max_participants
    if ! v2.1 then CreateRoomStage.rejected 400 "INVALID_MAX_PARTICIPANTS" v2.2
    else
      let v3 := validate_empty_timeout req.empty_timeout
      if ! v3.1 then CreateRoomStage.rejected 400 "INVALID_EMPTY_TIMEOUT" v3.2
      else
        let v4 := validate_metadata req.metadata_size
        if ! v4.1 then CreateRoomStage.rejected 400 "INVALID_METADATA" v4.2
        else CreateRoomStage.providerPhase (pyStrip req.room_name)

theorem alookup_histAppend_self (h : Hist) (u : String) (t : Turn) :
    alookup (histAppend h u t) u = some ((alookup h u).getD [] ++ [t]) := by
  simp [histAppend, alookup_aset_self]

/-- C2: for every room, calling start when a session is already registered
for that room returns the existing session's participant identity with
status "already_active" and does not construct or register a second session
(the registry is returned unchanged); registry keys stay duplicate-free, so
at most one session is registered per room. -/
theorem start_agent_already_active :
    (∀ (st : ManagerState) (room : String) (a : AgentS) (c : Except String AgentS),
      alookup st room = some a →
        start_agent st room c = (st, Except.ok ⟨a.participant_id, "already_active"⟩)) ∧
    (∀ (st : ManagerState) (room : String) (c : Except String AgentS),
      (keys st).Nodup → (keys (start_agent st room c).1).Nodup) := by
  constructor
  · intro st room a c h
    simp [start_agent, h]
  · intro st room c h
    cases hl : alookup st room with
    | some a => simpa [start_agent, hl] using h
    | none =>
        cases c with
        | error e => simpa [start_agent, hl] using h
        | ok a => simpa [start_agent, hl] using nodup_keys_aset st room a h

/-- Closed witness for `start_agent_already_active` at a one-room registry. -/
theorem start_agent_already_active_witness :
    start_agent [("room1", AgentS.mk (some "pid-1") true)] "room1" (Except.error "err")
      = ([("room1", AgentS.mk (some "pid-1") true)],
          Except.ok ⟨some "pid-1", "already_active"⟩) :=
  start_agent_already_active.1 [("room1", AgentS.mk (some "pid-1") true)] "room1"
    (AgentS.mk (some "pid-1") true) (Except.error "err") (by decide)

/-- C3: if session construction or connect fails during start(room) on an
unregistered room, the error propagates to the caller, the registry is
unchanged (no partially-registered entry), and a subsequent status query
reports inactive with null participant id. -/
theorem start_agent_failure_no_entry :
    ∀ (st : ManagerState) (room e : String),
      alookup st room = none →
        start_agent st room (Except.error e) = (st, Except.error e) ∧
        get_agent_status (start_agent st room (Except.error e)).1 room
          = ⟨false, none, false, room⟩ := by
  intro st room e h
  constructor
  · simp [start_agent, h]
  · simp [start_agent, get_agent_status, h]

/-- Closed witness for `start_agent_failure_no_entry` on the empty registry. -/
theorem start_agent_failure_no_entry_witness :
    start_agent [] "room1" (Except.error "connect failed") = ([], Except.error "connect failed") ∧
    get_agent_status (start_agent [] "room1" (Except.error "connect failed")).1 "room1"
      = ⟨false, none, false, "room1"⟩ :=
  start_agent_failure_no_entry [] "room1" "connect failed" (by decide)

/-- C5: a data message whose sender identity equals the agent's own identity
is ignored: history unchanged, no events (nothing appended, persisted or
published), no exception. -/
theorem self_message_ignored :
    ∀ (hist : Hist) (agent msg : String) (eff : TurnEffects),
      handle_message hist agent agent msg eff = ⟨hist, [], none⟩ := by
  intro hist agent msg eff
  simp [handle_message]

/-- C10: if the session's stop raises during stop(room) on a registered
room, the registry entry survives (status still reports the active agent)
and the error propagates; the entry is deleted only when stop returns
normally. -/
theorem stop_agent_failure_keeps_entry :
    ∀ (st : ManagerState) (room : String) (a : AgentS) (e : String),
      alookup st room = some a →
        stop_agent st room (some e) = (st, Except.error e) ∧
        get_agent_status (stop_agent st room (some e)).1 room
          = ⟨true, a.participant_id, a.connected, room⟩ ∧
        ((keys st).Nodup → alookup (stop_agent st room none).1 room = none) := by
  intro st room a e h
  refine ⟨by simp [stop_agent, h], by simp [stop_agent, get_agent_status, h], ?_⟩
  intro hnd
  have h1 : (stop_agent st room none).1 = aerase st room := by simp [stop_agent, h]
  rw [h1]
  exact alookup_aerase_self st room hnd

/-- Closed witness for `stop_agent_failure_keeps_entry` at a one-room registry. -/
theorem stop_agent_failure_keeps_entry_witness :
    stop_agent [("room1", AgentS.mk (some "pid-1") true)] "room1" (some "disconnect failed")
      = ([("room1", AgentS.mk (some "pid-1") true)], Except.error "disconnect failed") ∧
    get_agent_status
        (stop_agent [("room1", AgentS.mk (some "pid-1") true)] "room1"
          (some "disconnect failed")).1 "room1"
      = ⟨true, some "pid-1", true, "room1"⟩ ∧
    ((keys [("room1", AgentS.mk (some "pid-1") true)]).Nodup →
      alookup (stop_agent [("room1", AgentS.mk (some "pid-1") true)] "room1" none).1 "room1"
        = none) :=
  stop_agent_failure_keeps_entry [("room1", AgentS.mk (some "pid-1") true)] "room1"
    (AgentS.mk (some "pid-1") true) "disconnect failed" (by decide)

/-- C1 (amended): for every inbound message entering the turn protocol, the
user turn is appended and its persistence attempted before any reply is
generated (every trace containing the reply-generation step has a successful
user persist strictly earlier); when persistence fails, the turn aborts —
only the append, the failed persist and an error log happen, so no reply is
generated, persisted, or published — and the failure is logged; but the
exception is contained inside the handler (it completes without raising), so
nothing is surfaced upstream. -/
theorem turn_persist_before_reply_abort :
    (∀ (hist : Hist) (agent sender msg : String) (eff : TurnEffects) (e : String),
      sender ≠ agent → pyStrip msg ≠ "" → eff.persistUser = some e →
        (handle_message hist agent sender msg eff).events
            = [TurnEvent.appendUser ⟨"user", pyStrip msg, eff.now⟩,
                TurnEvent.persistUser (some e), TurnEvent.logError] ∧
        TurnEvent.genReply ∉ (handle_message hist agent sender msg eff).events ∧
        (∀ s, TurnEvent.publish s ∉ (handle_message hist agent sender msg eff).events) ∧
        (∀ o, TurnEvent.persistAssistant o ∉ (handle_message hist agent sender msg eff).events) ∧
        TurnEvent.logError ∈ (handle_message hist agent sender msg eff).events ∧
        (handle_message hist agent sender msg eff).escaped = none) ∧
    (∀ (hist : Hist) (agent sender msg : String) (eff : TurnEffects),
      TurnEvent.genReply ∈ (handle_message hist agent sender msg eff).events →
        ∃ pre post,
          (handle_message hist agent sender msg eff).events
            = pre ++ TurnEvent.genReply :: post ∧
          TurnEvent.persistUser none ∈ pre) := by
  constructor
  · intro hist agent sender msg eff e hs hm hp
    simp only [handle_message, if_neg hs, if_neg hm, hp]
    simp
  · intro hist agent sender msg eff hmem
    by_cases hs : sender = agent
    · simp [handle_message, hs] at hmem
    · by_cases hm : pyStrip msg = ""
      · simp [handle_message, if_neg hs, hm] at hmem
      · cases hp : eff.persistUser with
        | some e => simp [handle_message, if_neg hs, if_neg hm, hp] at hmem
        | none =>
            refine ⟨[TurnEvent.appendUser ⟨"user", pyStrip msg, eff.now⟩,
              TurnEvent.persistUser none], ?_⟩
            cases hr : eff.reply with
            | none =>
                exact ⟨[], by simp [handle_message, if_neg hs, if_neg hm, hp, hr], by simp⟩
            | some r =>
                by_cases hre : r = ""
                · exact ⟨[], by simp [handle_message, if_neg hs, if_neg hm, hp, hr, hre],
                    by simp⟩
                · cases hpa : eff.persistAssistant with
                  | some e2 =>
                      exact ⟨[TurnEvent.appendAssistant ⟨"assistant", r, eff.now⟩,
                          TurnEvent.persistAssistant (some e2), TurnEvent.logError],
                        by simp [handle_message, if_neg hs, if_neg hm, hp, hr, hre, hpa],
                        by simp⟩
                  | none =>
                      exact ⟨[TurnEvent.appendAssistant ⟨"assistant", r, eff.now⟩,
                          TurnEvent.persistAssistant none, TurnEvent.publish r],
                        by simp [handle_message, if_neg hs, if_neg hm, hp, hr, hre, hpa],
                        by simp⟩

/-- Closed witness for `turn_persist_before_reply_abort` at a concrete
failed persist. -/
theorem turn_persist_before_reply_abort_witness :
    (handle_message [] "x_agent" "alice" "hi" ⟨some "boom", none, none, "t0"⟩).events
        = [TurnEvent.appendUser ⟨"user", pyStrip "hi", TurnEffects.now ⟨some "boom", none, none, "t0"⟩⟩,
            TurnEvent.persistUser (some "boom"), TurnEvent.logError] ∧
    TurnEvent.genReply ∉ (handle_message [] "x_agent" "alice" "hi" ⟨some "boom", none, none, "t0"⟩).events ∧
    (∀ s, TurnEvent.publish s ∉ (handle_message [] "x_agent" "alice" "hi" ⟨some "boom", none, none, "t0"⟩).events) ∧
    (∀ o, TurnEvent.persistAssistant o ∉ (handle_message [] "x_agent" "alice" "hi" ⟨some "boom", none, none, "t0"⟩).events) ∧
    TurnEvent.logError ∈ (handle_message [] "x_agent" "alice" "hi" ⟨some "boom", none, none, "t0"⟩).events ∧
    (handle_message [] "x_agent" "alice" "hi" ⟨some "boom", none, none, "t0"⟩).escaped = none :=
  turn_persist_before_reply_abort.1 [] "x_agent" "alice" "hi" ⟨some "boom", none, none, "t0"⟩
    "boom" (by decide) (by decide) rfl

/-- C1 counterexample: at a concrete inbound message whose user-turn persist
raises, the handler swallows the exception (`escaped = none`), so the failure
is NOT surfaced upstream as a failed operation — refuting that conjunct of
the claim (the persist failure demonstrably occurred in this run: the failed
persist event is in the trace). -/
theorem turn_persist_failure_not_surfaced_cex :
    TurnEvent.persistUser (some "boom")
        ∈ (handle_message [] "x_agent" "alice" "hi" ⟨some "boom", none, none, "t0"⟩).events ∧
    ¬ ((handle_message [] "x_agent" "alice" "hi" ⟨some "boom", none, none, "t0"⟩).escaped
        ≠ none) := by decide

theorem pyLastN_length_le {α : Type} (n : Nat) (l : List α) : (pyLastN n l).length ≤ n := by
  simp only [pyLastN, List.length_drop]
  omega

theorem pyLastN_getLast? {α : Type} (n : Nat) (hn : 0 < n) (l : List α) (h : l ≠ []) :
    (pyLastN n l).getLast? = l.getLast? := by
  have hlen : 0 < l.length := List.length_pos.mpr h
  rw [pyLastN, List.getLast?_drop]
  simp [Nat.not_le.mpr (show l.length - n < l.length by omega)]

theorem runTurns_replicate_length (agent sender msg : String) (eff : TurnEffects)
    (hs : sender ≠ agent) (hm : pyStrip msg ≠ "") (hp : eff.persistUser = none)
    (hr : eff.reply = none) :
    ∀ (n : Nat) (hist : Hist),
      ((alookup (runTurns hist agent sender (List.replicate n msg) eff) sender).getD []).length
        = ((alookup hist sender).getD []).length + n := by
  intro n
  induction n with
  | zero => intro hist; simp [runTurns]
  | succ k ih =>
      intro hist
      have hstep : (handle_message hist agent sender msg eff).history
          = histAppend hist sender ⟨"user", pyStrip msg, eff.now⟩ := by
        simp [handle_message, if_neg hs, if_neg hm, hp, hr]
      have hrun : runTurns hist agent sender (List.replicate (k + 1) msg) eff
          = runTurns (handle_message hist agent sender msg eff).history agent sender
              (List.replicate k msg) eff := by
        simp [runTurns, List.replicate_succ]
      rw [hrun, ih, hstep, alookup_histAppend_self]
      simp only [Option.getD_some, List.length_append, List.length_singleton]
      omega

/-- C4 (amended): the per-sender in-memory history is append-only and
unbounded — every handled message grows the sender's history (never
truncated; after n handled messages from a fresh sender it holds n turns, for
every n) — while the prompt assembly forwards at most the last 6 turns of it
to the Language Model Adapter: the history-derived part of the prompt is
exactly the `[-6:]` slice (length at most 6), followed by at most one extra
entry (the new user message, omitted exactly when it already equals the tail
of the forwarded history, as is the case in the turn protocol where the user
turn was appended first). -/
theorem history_unbounded_context_capped :
    (∀ (hist : Hist) (agent sender msg : String) (eff : TurnEffects),
      sender ≠ agent → pyStrip msg ≠ "" →
        ∃ ts : List Turn, ts ≠ [] ∧
          alookup (handle_message hist agent sender msg eff).history sender
            = some ((alookup hist sender).getD [] ++ ts)) ∧
    (∀ n : Nat,
      ((alookup (runTurns [] "x_agent" "alice" (List.replicate n "hi")
          ⟨none, none, none, "t0"⟩) "alice").getD []).length = n) ∧
    (∀ (hist : List Turn) (message : String),
      ∃ extra : List Msg,
        build_messages hist message
          = (pyLastN 6 hist).map (fun t => Msg.mk t.role t.content) ++ extra ∧
        extra.length ≤ 1 ∧
        ((pyLastN 6 hist).map (fun t => Msg.mk t.role t.content)).length ≤ 6) ∧
    (∀ (hist : List Turn) (t : Turn) (message : String),
      hist.getLast? = some t → t.content = message →
        build_messages hist message
          = (pyLastN 6 hist).map (fun t => Msg.mk t.role t.content) ∧
        (build_messages hist message).length ≤ 6) := by
  refine ⟨?_, ?_, ?_, ?_⟩
  · intro hist agent sender msg eff hs hm
    cases hp : eff.persistUser with
    | some e =>
        exact ⟨[⟨"user", pyStrip msg, eff.now⟩], by simp,
          by simp [handle_message, if_neg hs, if_neg hm, hp, alookup_histAppend_self]⟩
    | none =>
        cases hr : eff.reply with
        | none =>
            exact ⟨[⟨"user", pyStrip msg, eff.now⟩], by simp,
              by simp [handle_message, if_neg hs, if_neg hm, hp, hr, alookup_histAppend_self]⟩
        | some r =>
            by_cases hre : r = ""
            · exact ⟨[⟨"user", pyStrip msg, eff.now⟩], by simp,
                by simp [handle_message, if_neg hs, if_neg hm, hp, hr, hre,
                  alookup_histAppend_self]⟩
            · refine ⟨[⟨"user", pyStrip msg, eff.now⟩, ⟨"assistant", r, eff.now⟩],
                by simp, ?_⟩
              cases hpa : eff.persistAssistant <;>
                simp [handle_message, if_neg hs, if_neg hm, hp, hr, hre, hpa,
                  alookup_histAppend_self, List.append_assoc]
  · intro n
    have h := runTurns_replicate_length "x_agent" "alice" "hi" ⟨none, none, none, "t0"⟩
      (by decide) (by decide) rfl rfl n []
    simpa [alookup] using h
  · intro hist message
    rcases hl : ((pyLastN 6 hist).map (fun t => Msg.mk t.role t.content)).getLast? with _ | last
    · refine ⟨[Msg.mk "user" message], by simp [build_messages, hl], by simp, ?_⟩
      simpa using pyLastN_length_le 6 hist
    · by_cases hce : last.content = message
      · refine ⟨[], by simp [build_messages, hl, hce], by simp, ?_⟩
        simpa using pyLastN_length_le 6 hist
      · refine ⟨[Msg.mk "user" message], by simp [build_messages, hl, hce], by simp, ?_⟩
        simpa using pyLastN_length_le 6 hist
  · intro hist t message hlast hcont
    have hne : hist ≠ [] := by
      intro h0
      rw [h0] at hlast
      simp at hlast
    have h6 : (pyLastN 6 hist).getLast? = some t := by
      rw [pyLastN_getLast? 6 (by omega) hist hne, hlast]
    have hmap : ((pyLastN 6 hist).map (fun t => Msg.mk t.role t.content)).getLast?
        = some (Msg.mk t.role t.content) := by
      rw [List.getLast?_map, h6]
      rfl
    have heq : build_messages hist message
        = (pyLastN 6 hist).map (fun t => Msg.mk t.role t.content) := by
      simp [build_messages, hmap, hcont]
    refine ⟨heq, ?_⟩
    rw [heq]
    simpa using pyLastN_length_le 6 hist

/-- Closed witness for `history_unbounded_context_capped` at a concrete
handled message. -/
theorem history_unbounded_context_capped_witness :
    ∃ ts : List Turn, ts ≠ [] ∧
      alookup (handle_message [] "x_agent" "alice" "hi"
          ⟨none, some "yo", none, "t0"⟩).history "alice"
        = some ((alookup ([] : Hist) "alice").getD [] ++ ts) :=
  history_unbounded_context_capped.1 [] "x_agent" "alice" "hi"
    ⟨none, some "yo", none, "t0"⟩ (by decide) (by decide)

/-- C4 counterexample: after seven handled messages the per-sender in-memory
history holds seven turns — it is not a bounded sequence retaining only the
most recent (at most 6, the only bound the specification names) turns;
nothing in the handler ever truncates it. -/
theorem history_exceeds_bound_cex :
    ((alookup (runTurns [] "x_agent" "alice" ["m1", "m2", "m3", "m4", "m5", "m6", "m7"]
        ⟨none, none, none, "t0"⟩) "alice").getD []).length = 7 ∧
    ¬ (((alookup (runTurns [] "x_agent" "alice" ["m1", "m2", "m3", "m4", "m5", "m6", "m7"]
        ⟨none, none, none, "t0"⟩) "alice").getD []).length ≤ 6) := by decide

theorem formatFrom_eq_filter {σ : Type} (rs : List (RawRecord σ)) :
    ∀ i : Nat,
      formatFrom i rs
        = ((List.enumFrom i rs).filter (fun p => ! decide (memoryText p.2 = ""))).map
            (fun p => mkMemory p.1 p.2) := by
  induction rs with
  | nil => intro i; simp [formatFrom, List.enumFrom]
  | cons r rest ih =>
      intro i
      by_cases h : memoryText r = ""
      · simp [formatFrom, List.enumFrom, h, ih (i + 1)]
      · simp [formatFrom, List.enumFrom, h, ih (i + 1)]

theorem filter_enumFrom_length {σ : Type} (q : RawRecord σ → Bool)
    (rs : List (RawRecord σ)) :
    ∀ i : Nat,
      ((List.enumFrom i rs).filter (fun p => q p.2)).length = (rs.filter q).length := by
  induction rs with
  | nil => intro i; simp [List.enumFrom]
  | cons r rest ih =>
      intro i
      by_cases h : q r
      · simp [List.enumFrom, List.filter_cons, h, ih (i + 1)]
      · simp [List.enumFrom, List.filter_cons, h, ih (i + 1)]

/-- C6: memory-record formatting keeps exactly the records whose selected
text (`text` or `content` or `memory`, under Python truthiness) is nonempty,
in input order (it is the filter-then-format of the enumerated input); a
record missing all three of text/content/memory selects the empty text, so
it is dropped; the response count always equals the number of records kept;
and every returned record carries nonempty text. -/
theorem format_memories_spec :
    ∀ σ : Type,
      (∀ rs : List (RawRecord σ),
        format_memories rs
          = ((rs.enum).filter (fun p => ! decide (memoryText p.2 = ""))).map
              (fun p => mkMemory p.1 p.2)) ∧
      (∀ r : RawRecord σ,
        r.text = none → r.content = none → r.memory = none → memoryText r = "") ∧
      (∀ (q : String) (rs : List (RawRecord σ)),
        (retrieve_memories_core q rs).count = (retrieve_memories_core q rs).memories.length ∧
        (retrieve_memories_core q rs).count
          = (rs.filter (fun r => ! decide (memoryText r = ""))).length) ∧
      (∀ (rs : List (RawRecord σ)) (m : MemoryRecord σ),
        m ∈ format_memories rs → m.text ≠ "") := by
  intro σ
  refine ⟨?_, ?_, ?_, ?_⟩
  · intro rs
    exact formatFrom_eq_filter rs 0
  · intro r h1 h2 h3
    simp [memoryText, truthyStr, h1, h2, h3]
  · intro q rs
    constructor
    · simp [retrieve_memories_core]
    · have h := formatFrom_eq_filter rs 0
      simp only [retrieve_memories_core, format_memories, h, List.length_map]
      exact filter_enumFrom_length (fun r => ! decide (memoryText r = "")) rs 0
  · intro rs m hm
    rw [format_memories, formatFrom_eq_filter rs 0] at hm
    rcases List.mem_map.mp hm with ⟨p, hp, hmk⟩
    have hq := (List.mem_filter.mp hp).2
    simp only [Bool.not_eq_true', decide_eq_false_iff_not] at hq
    rw [← hmk]
    exact hq

/-- Closed witness for `format_memories_spec`: a record with all of
text/content/memory absent selects the empty text (hence is dropped). -/
theorem format_memories_spec_witness :
    memoryText (⟨none, none, none, none, none, none⟩ : RawRecord Unit) = "" :=
  (format_memories_spec Unit).2.1 ⟨none, none, none, none, none, none⟩ rfl rfl rfl

/-- C7 (amended): an adapter exception reaching a memory-service endpoint
is not answered by the endpoint\x27s own `except` branch — entering it raises
`NameError` on the unimported `JSONResponse`, so the branch\x27s envelope
(with its stable `MEMORY_STORE_FAILED` / `MEMORY_SEARCH_FAILED` code) is
never built — and the client instead receives the global exception
handler\x27s 500 envelope: fixed message "Internal server error", no
error-code field, and a `detail` that is DEBUG-gated and in every mode
independent of the adapter exception text, so the raw exception text never
appears (in non-debug mode the detail is the fixed string
"An internal error occurred"). -/
theorem memory_endpoint_global_envelope :
    ∀ (α : Type) (f : ServiceFailure) (debug : Bool),
      store_memory_endpoint (Except.error f : Except ServiceFailure α)
        = Except.error nameErrorText ∧
      search_memories_endpoint (Except.error f : Except ServiceFailure α)
        = Except.error nameErrorText ∧
      memory_api_store_response debug (Except.error f : Except ServiceFailure α)
        = HttpAnswer.globalError
            ⟨500, false, "Internal server error",
              if debug then nameErrorText else "An internal error occurred"⟩ ∧
      memory_api_search_response debug (Except.error f : Except ServiceFailure α)
        = memory_api_store_response debug (Except.error f : Except ServiceFailure α) ∧
      (∀ m mm : String,
        memory_api_store_response false
            (Except.error (ServiceFailure.exn m) : Except ServiceFailure α)
          = memory_api_store_response false
              (Except.error (ServiceFailure.exn mm) : Except ServiceFailure α)) := by
  intro α f debug
  exact ⟨rfl, rfl, rfl, rfl, fun m mm => rfl⟩

/-- C7 counterexample: for a concrete adapter exception in non-debug mode
the client receives the global handler\x27s envelope — `{success: false,
message: "Internal server error", detail: "An internal error occurred"}`,
a shape (`GlobalErrorEnvelope`) with no error-code field, neither of whose
string fields is the endpoint\x27s would-be stable code — refuting the
claimed "translated into a 500 response envelope carrying a stable error
code" (the 500 status holds, the stable code does not; the raw exception
text indeed does not appear). -/
theorem memory_endpoint_no_error_code_cex :
    memory_api_store_response false
        (Except.error (ServiceFailure.exn "mem0 connection refused")
          : Except ServiceFailure Unit)
      = HttpAnswer.globalError
          ⟨500, false, "Internal server error", "An internal error occurred"⟩ ∧
    "Internal server error" ≠ "MEMORY_STORE_FAILED" ∧
    "An internal error occurred" ≠ "MEMORY_STORE_FAILED" ∧
    "An internal error occurred" ≠ "mem0 connection refused" ∧
    "Internal server error" ≠ "mem0 connection refused" := by decide

theorem validate_room_name_true_spec (s : String) :
    (validate_room_name s).1 = true →
      1 ≤ (pyStrip s).length ∧ (pyStrip s).length ≤ 100 ∧
      (pyStrip s).data.all isRoomNameChar = true := by
  intro h
  simp only [validate_room_name] at h
  split_ifs at h with h1 h2 h3 h4
  refine ⟨by omega, by omega, ?_⟩
  simpa using h4

/-- C8 (amended): a create-room request reaches the provider phase only if
the trimmed room name has length 1-100 and every character is in the class
of the source regex `[a-zA-Z0-9\-_\s]` — letters, digits, hyphen,
underscore, or any whitespace character (not just the space of the claimed
charset `[A-Za-z0-9_- ]`); every request failing room-name validation —
including a whitespace-only name — is rejected with HTTP 400 and error code
`INVALID_ROOM_NAME` before any provider call. -/
theorem create_room_validation_spec :
    (∀ (req : CreateRoomReq) (clean : String),
      create_room_validate req = CreateRoomStage.providerPhase clean →
        clean = pyStrip req.room_name ∧
        1 ≤ clean.length ∧ clean.length ≤ 100 ∧
        clean.data.all isRoomNameChar = true) ∧
    (∀ req : CreateRoomReq,
      (validate_room_name req.room_name).1 = false →
        create_room_validate req
          = CreateRoomStage.rejected 400 "INVALID_ROOM_NAME"
              (validate_room_name req.room_name).2) ∧
    (create_room_validate ⟨"  ", 10, 300, none⟩
      = CreateRoomStage.rejected 400 "INVALID_ROOM_NAME"
          "Room name must be at least 1 character(s)") := by
  refine ⟨?_, ?_, by decide⟩
  · intro req clean h
    simp only [create_room_validate] at h
    split_ifs at h with h1 h2 h3 h4
    injection h with hh
    subst hh
    have hv : (validate_room_name req.room_name).1 = true := by
      simpa using h1
    exact ⟨rfl, validate_room_name_true_spec req.room_name hv⟩
  · intro req h
    simp only [create_room_validate]
    simp [h]

/-- Closed witness for `create_room_validation_spec`: the whitespace-only
room name fails validation, and the request carrying it is rejected with
`INVALID_ROOM_NAME`. -/
theorem create_room_validation_spec_witness :
    create_room_validate ⟨"  ", 10, 300, none⟩
      = CreateRoomStage.rejected 400 "INVALID_ROOM_NAME"
          (validate_room_name (CreateRoomReq.mk "  " 10 300 none).room_name).2 :=
  create_room_validation_spec.2.1 ⟨"  ", 10, 300, none⟩ (by decide)

/-- C8 counterexample: the room name containing a TAB passes validation and
reaches the provider phase of create_room, yet TAB is outside the charset
`[A-Za-z0-9_- ]` stated by the claim. -/
theorem room_name_charset_cex :
    create_room_validate ⟨"a\tb", 10, 300, none⟩
        = CreateRoomStage.providerPhase "a\tb" ∧
    '\t' ∈ "a\tb".data ∧ specRoomCharset '\t' = false := by decide

/-- C9: the persisted metadata always carries `stored_at`, `username` and
`service` with the service-chosen values (overwriting any caller-supplied
values under those keys), while every other caller-supplied key is passed
through unchanged. -/
theorem store_memory_metadata_frame :
    ∀ (md : Option (List (String × String))) (now user : String),
      alookup (store_metadata md now user) "stored_at" = some now ∧
      alookup (store_metadata md now user) "username" = some user ∧
      alookup (store_metadata md now user) "service" = some "memory-service" ∧
      (∀ k : String, k ≠ "stored_at" → k ≠ "username" → k ≠ "service" →
        alookup (store_metadata md now user) k = alookup (md.getD []) k) := by
  intro md now user
  refine ⟨?_, ?_, ?_, ?_⟩
  · simp only [store_metadata]
    rw [alookup_aset_ne _ _ _ _ (by decide), alookup_aset_ne _ _ _ _ (by decide)]
    exact alookup_aset_self _ _ _
  · simp only [store_metadata]
    rw [alookup_aset_ne _ _ _ _ (by decide)]
    exact alookup_aset_self _ _ _
  · simp only [store_metadata]
    exact alookup_aset_self _ _ _
  · intro k h1 h2 h3
    simp only [store_metadata]
    rw [alookup_aset_ne _ _ _ _ h3, alookup_aset_ne _ _ _ _ h2,
      alookup_aset_ne _ _ _ _ h1]

/-- Closed witness for `store_memory_metadata_frame`: a caller-supplied
`username` is overwritten while an unrelated key `session_id` survives. -/
theorem store_memory_metadata_frame_witness :
    alookup (store_metadata (some [("session_id", "chat_123"), ("username", "evil")])
        "2024-01-15T10:30:00" "alice") "username" = some "alice" ∧
    alookup (store_metadata (some [("session_id", "chat_123"), ("username", "evil")])
        "2024-01-15T10:30:00" "alice") "session_id"
      = alookup ((some [("session_id", "chat_123"), ("username", "evil")]
          : Option (List (String × String))).getD []) "session_id" :=
  ⟨(store_memory_metadata_frame (some [("session_id", "chat_123"), ("username", "evil")])
      "2024-01-15T10:30:00" "alice").2.1,
    (store_memory_metadata_frame (some [("session_id", "chat_123"), ("username", "evil")])
      "2024-01-15T10:30:00" "alice").2.2.2 "session_id" (by decide) (by decide) (by decide)⟩
